import Mathlib

/-!
Chat notifier of the health-check package (`packages/health-check/src/discord.js`)

A shallow embedding of the module.  The chat service client is an outside
collaborator: its local caches are lists in cache (insertion) order, and the
outcome of its `login` call is a field of the client.  Everything the module
does to the outside world (a channel's `send`, `console.log`, `client.login`)
is recorded, in order, in the effect list of a `Run`.
-/

namespace Discord

/-! ## Data model -/

/-- Role of a guild: `id` is the cache key, `name` the role name. -/
structure Role where
  id : Nat
  name : String
  deriving DecidableEq

/-- Guild with its cached roles (`guild.roles.cache`), in cache order. -/
structure Guild where
  id : Nat
  name : String
  roles : List Role
  deriving DecidableEq

/-- Channel: `id` is the cache key, `name` the channel name, and `hasSend` tells
whether the object has a `send` method: text channels have one, category and
voice channels, which live in the same cache, have none. -/
structure Channel where
  id : Nat
  name : String
  hasSend : Bool
  deriving DecidableEq

/-- Error value of the host language: what is thrown, or what a promise rejects with. -/
structure JsError where
  name : String
  message : String
  deriving DecidableEq

/-- Promise handed back by a channel's `send`; the module never awaits it. -/
structure Promise where
  channel : Channel
  message : String
  deriving DecidableEq

/-- Observable action on the outside world. -/
inductive Effect where
  | send (channel : Channel) (message : String)
  | log (line : String)
  | login (token : Option String)
  deriving DecidableEq

/-- The `process.env` entries the module reads; `none` is an unset variable. -/
structure Env where
  DISCORD_BOT_TOKEN : Option String
  PORTAL_NAME : Option String

/-- The `client` object: `client.channels.cache`, `client.guilds.cache`, and how
the remote service answers `client.login(token)` (`none`: the promise resolves,
`some e`: it rejects with `e`). -/
structure Client where
  channels : List Channel
  guilds : List Guild
  loginOutcome : Option String → Option JsError

/-! ## Runs: effects performed, then normal or abrupt completion -/

/-- Result of running a piece of code: the effects it performed, in order, and
either the value it completed with or the error it threw. -/
structure Run (α : Type) where
  effects : List Effect
  completion : Except JsError α

namespace Run

/-- Completing with a value, no effect. -/
def ret {α : Type} (a : α) : Run α := ⟨[], .ok a⟩

/-- Throwing an error, no effect. -/
def raise {α : Type} (e : JsError) : Run α := ⟨[], .error e⟩

/-- Sequencing: the second part runs only when the first completes normally. -/
def andThen {α β : Type} (x : Run α) (f : α → Run β) : Run β :=
  match x.completion with
  | .ok a => ⟨x.effects ++ (f a).effects, (f a).completion⟩
  | .error e => ⟨x.effects, .error e⟩

/-- The `try { body } catch (error) { handler }` statement. -/
def tryCatch {α : Type} (body : Run α) (handler : JsError → Run α) : Run α :=
  match body.completion with
  | .ok _ => body
  | .error e => ⟨body.effects ++ (handler e).effects, (handler e).completion⟩

/-- Messages handed to channels, in order. -/
def sends {α : Type} (r : Run α) : List (Channel × String) :=
  r.effects.filterMap fun
    | .send c m => some (c, m)
    | _ => none

/-- Lines written by `console.log`, in order. -/
def logs {α : Type} (r : Run α) : List String :=
  r.effects.filterMap fun
    | .log l => some l
    | _ => none

/-- Tokens handed to `client.login`, in order. -/
def logins {α : Type} (r : Run α) : List (Option String) :=
  r.effects.filterMap fun
    | .login t => some t
    | _ => none

end Run

instance : Monad Run where
  pure := Run.ret
  bind := Run.andThen

/-! ## Collaborator operations -/

/-- The call `console.log(line)`. -/
def consoleLog (line : String) : Run Unit := ⟨[.log line], .ok ()⟩

/-- Calling `callee`, which is `undefined`, as a function. -/
def typeErrorNotAFunction (callee : String) : JsError :=
  ⟨"TypeError", callee ++ " is not a function"⟩

/-- The call `channel.send(message)`: hands the message to the channel and
returns the pending promise; on a channel without a `send` method the call
throws and nothing is handed over. -/
def Channel.send (channel : Channel) (message : String) : Run Promise :=
  if channel.hasSend then
    ⟨[.send channel message], .ok ⟨channel, message⟩⟩
  else
    Run.raise (typeErrorNotAFunction "channel.send")

/-- The awaited call `client.login(token)`: one login attempt, which completes
normally or throws the error the promise rejected with. -/
def Client.login (client : Client) (token : Option String) : Run Unit :=
  ⟨[.login token], match client.loginOutcome token with
    | none => .ok ()
    | some e => .error e⟩

/-- Truthiness of an environment value: `undefined` and the empty string are
falsy, every other string is truthy. -/
def truthy : Option String → Bool
  | none => false
  | some s => s != ""

/-- Reading property `prop` of `undefined`.  The message is the text of current
engines, with the property name in single quotes; older engines word it
differently, and no claim depends on the wording. -/
def typeErrorReading (prop : String) : JsError :=
  ⟨"TypeError", "Cannot read properties of undefined (reading \x27" ++ prop ++ "\x27)"⟩

/-! ## The module -/

/-- The binding `PORTAL_NAME = "PORTAL_NAME not defined"` of the destructuring
of `process.env`: the default applies to `undefined` only. -/
def PORTAL_NAME (env : Env) : String :=
  match env.PORTAL_NAME with
  | some name => name
  | none => "PORTAL_NAME not defined"

/-- The function `sendMessage(message, channelName)`. -/
def sendMessage (client : Client) (message channelName : String) : Run (Option Promise) :=
  let channel := client.channels.find? (fun channel => channel.name == channelName)
  match channel with
  | none => do
    consoleLog ("Channel " ++ channelName ++ " not found!")
    return none
  | some channel => do
    let _ ← channel.send message
    return none

/-- The function `sendMessageToHealthCheckChannel(message)`. -/
def sendMessageToHealthCheckChannel (client : Client) (message : String) :
    Run (Option Promise) :=
  sendMessage client message "skynet-portal-health-check"

/-- The listener registered with `client.on("ready", ...)`. -/
def onReady (env : Env) (client : Client) : Run Unit := do
  let _ ← sendMessageToHealthCheckChannel client (PORTAL_NAME env ++ ": reporting for duty!")
  return ()

/-- The startup sequence (the immediately invoked async function). -/
def startup (env : Env) (client : Client) : Run Unit :=
  if !truthy env.DISCORD_BOT_TOKEN then do
    consoleLog "DISCORD_BOT_TOKEN environment variable not available, skipping discord integration"
    return ()
  else
    Run.tryCatch (client.login env.DISCORD_BOT_TOKEN) fun error =>
      consoleLog ("Could not connect to discord server: " ++ error.message)

/-- The function `getGuildByName(guildName)`. -/
def getGuildByName (client : Client) (guildName : String) : Run (Option Guild) :=
  return client.guilds.find? (fun guild => guild.name == guildName)

/-- The function `getRoleByName(roleName)`: reading `guild.roles` throws when
`guild` is `undefined`. -/
def getRoleByName (client : Client) (roleName : String) : Run (Option Role) := do
  let guild ← getGuildByName client "Nebulous"
  match guild with
  | none => Run.raise (typeErrorReading "roles")
  | some guild => return guild.roles.find? (fun role => role.name == roleName)

/-! ## Sample inputs -/

/-- A client whose cache holds two guilds whose names differ in letter case
only, and no health-check channel; the service rejects every login. -/
def sampleClient : Client where
  channels := [⟨1, "random", true⟩, ⟨2, "general", true⟩, ⟨3, "general", true⟩]
  guilds := [⟨10, "nebulous", [⟨100, "Admin"⟩]⟩,
    ⟨11, "Nebulous", [⟨101, "Member"⟩, ⟨102, "Admin"⟩, ⟨103, "Admin"⟩]⟩]
  loginOutcome := fun _ => some ⟨"Error", "An invalid token was provided."⟩

/-- A client whose cache holds the health-check channel. -/
def readyClient : Client where
  channels := [⟨1, "general", true⟩, ⟨2, "skynet-portal-health-check", true⟩]
  guilds := []
  loginOutcome := fun _ => none

/-- A client with a category and a text channel both called `general`, the
category first in the cache, and no health-check channel; logins succeed. -/
def categoryFirstClient : Client where
  channels := [⟨1, "general", false⟩, ⟨2, "general", true⟩]
  guilds := []
  loginOutcome := fun _ => none

/-! ## Lemmas on runs and on the cache scan -/

/-- Position of the first entry called `n`: `xs` splits as `pre ++ x :: post`
with no entry of `pre` called `n`. -/
def FirstNamed {α : Type} (name : α → String) (n : String) (xs : List α) (x : α) : Prop :=
  ∃ pre post, xs = pre ++ x :: post ∧ (∀ y ∈ pre, name y ≠ n) ∧ name x = n

theorem find_named_eq_some {α : Type} (name : α → String) (n : String) (xs : List α) (x : α)
    (h : xs.find? (fun y => name y == n) = some x) : FirstNamed name n xs x := by
  rw [List.find?_eq_some] at h
  obtain ⟨hx, pre, post, hsplit, hpre⟩ := h
  refine ⟨pre, post, hsplit, ?_, by simpa using hx⟩
  intro y hy
  simpa using hpre y hy

theorem find_named_eq_none {α : Type} (name : α → String) (n : String) (xs : List α) :
    xs.find? (fun y => name y == n) = none ↔ ∀ y ∈ xs, name y ≠ n := by
  simp

theorem find_named_of_mem {α : Type} (name : α → String) (n : String) (xs : List α)
    (h : ∃ y ∈ xs, name y = n) : ∃ x, xs.find? (fun y => name y == n) = some x := by
  cases hf : xs.find? (fun y => name y == n) with
  | some x => exact ⟨x, rfl⟩
  | none =>
    obtain ⟨y, hy, hn⟩ := h
    exact absurd hn ((find_named_eq_none name n xs).mp hf y hy)

theorem find_named_of_firstNamed {α : Type} (name : α → String) (n : String) (xs : List α) (x : α)
    (h : FirstNamed name n xs x) : xs.find? (fun y => name y == n) = some x := by
  obtain ⟨pre, post, hsplit, hpre, hx⟩ := h
  subst hsplit
  induction pre with
  | nil => simp [List.find?, hx]
  | cons a pre ih =>
    have ha : name a ≠ n := hpre a (List.mem_cons_self _ _)
    have hrest : ∀ y ∈ pre, name y ≠ n := fun y hy => hpre y (List.mem_cons_of_mem _ hy)
    simp only [List.cons_append, List.find?]
    have : (name a == n) = false := by simpa using ha
    rw [this]
    exact ih hrest

theorem sendMessage_of_find_some (client : Client) (message channelName : String) (c : Channel)
    (h : client.channels.find? (fun channel => channel.name == channelName) = some c)
    (hsend : c.hasSend = true) :
    sendMessage client message channelName = ⟨[.send c message], .ok none⟩ := by
  simp only [sendMessage, h, bind, Run.andThen, Channel.send, hsend, if_true]
  rfl

theorem sendMessage_of_find_some_no_send (client : Client) (message channelName : String)
    (c : Channel)
    (h : client.channels.find? (fun channel => channel.name == channelName) = some c)
    (hsend : c.hasSend = false) :
    sendMessage client message channelName
      = ⟨[], .error (typeErrorNotAFunction "channel.send")⟩ := by
  simp only [sendMessage, h, bind, Run.andThen, Channel.send, hsend]
  rfl

theorem sendMessage_of_find_none (client : Client) (message channelName : String)
    (h : client.channels.find? (fun channel => channel.name == channelName) = none) :
    sendMessage client message channelName
      = ⟨[.log ("Channel " ++ channelName ++ " not found!")], .ok none⟩ := by
  simp only [sendMessage, h]
  rfl

theorem getGuildByName_eq (client : Client) (guildName : String) :
    getGuildByName client guildName
      = ⟨[], .ok (client.guilds.find? (fun guild => guild.name == guildName))⟩ := rfl

theorem getRoleByName_of_find_some (client : Client) (roleName : String) (g : Guild)
    (h : client.guilds.find? (fun guild => guild.name == "Nebulous") = some g) :
    getRoleByName client roleName
      = ⟨[], .ok (g.roles.find? (fun role => role.name == roleName))⟩ := by
  simp only [getRoleByName, bind, Run.andThen, getGuildByName_eq, h]
  rfl

theorem getRoleByName_of_find_none (client : Client) (roleName : String)
    (h : client.guilds.find? (fun guild => guild.name == "Nebulous") = none) :
    getRoleByName client roleName = ⟨[], .error (typeErrorReading "roles")⟩ := by
  simp only [getRoleByName, bind, Run.andThen, getGuildByName_eq, h]
  rfl

theorem startup_of_falsy (env : Env) (client : Client) (h : truthy env.DISCORD_BOT_TOKEN = false) :
    startup env client
      = ⟨[.log "DISCORD_BOT_TOKEN environment variable not available, skipping discord integration"],
          .ok ()⟩ := by
  simp only [startup, h]
  rfl

theorem startup_of_truthy (env : Env) (client : Client) (h : truthy env.DISCORD_BOT_TOKEN = true) :
    startup env client
      = match client.loginOutcome env.DISCORD_BOT_TOKEN with
        | none => ⟨[.login env.DISCORD_BOT_TOKEN], .ok ()⟩
        | some e =>
          ⟨[.login env.DISCORD_BOT_TOKEN,
            .log ("Could not connect to discord server: " ++ e.message)], .ok ()⟩ := by
  simp only [startup, h, Run.tryCatch, Client.login]
  cases client.loginOutcome env.DISCORD_BOT_TOKEN <;> rfl

theorem truthy_iff (t : Option String) : truthy t = true ↔ ∃ s, t = some s ∧ s ≠ "" := by
  cases t with
  | none => simp [truthy]
  | some s => simp [truthy]

theorem find_nebulous_map (f : Guild → List Role) (gs : List Guild) :
    (gs.map fun g => if g.name = "Nebulous" then g else { g with roles := f g }).find?
        (fun guild => guild.name == "Nebulous")
      = gs.find? (fun guild => guild.name == "Nebulous") := by
  induction gs with
  | nil => rfl
  | cons g gs ih =>
    by_cases hg : g.name = "Nebulous"
    · simp [List.find?, hg]
    · simp only [List.map_cons, List.find?, hg, if_false]
      have : (g.name == "Nebulous") = false := by simpa using hg
      rw [this]
      exact ih

/-! ## The claims -/

/-- C1, as stated, fails: with a category and a text channel both called
`general` cached, the category first, `sendMessage "hi" "general"` finds the
category, whose `send` is not a function: it throws a `TypeError` and hands no
message to any channel. -/
theorem sendMessage_first_match_without_send :
    (∃ c ∈ categoryFirstClient.channels, c.name = "general") ∧
      (sendMessage categoryFirstClient "hi" "general").effects = [] ∧
      (sendMessage categoryFirstClient "hi" "general").completion
        = .error (typeErrorNotAFunction "channel.send") ∧
      ¬ ∃ c : Channel,
        (sendMessage categoryFirstClient "hi" "general").sends = [(c, "hi")] ∧
        (sendMessage categoryFirstClient "hi" "general").completion = .ok none := by
  refine ⟨by decide, rfl, rfl, ?_⟩
  rintro ⟨c, hc, _⟩
  have h0 : (sendMessage categoryFirstClient "hi" "general").sends = [] := rfl
  rw [h0] at hc
  exact List.noConfusion hc

/-- C1, amended: when the cached channels contain a channel called
`channelName` and the first such channel in cache order has a `send` method,
`sendMessage message channelName` hands exactly `message` to that channel,
once, performs no other effect (no other send, no log line) and returns
`undefined`. -/
theorem sendMessage_found (client : Client) (message channelName : String)
    (h : ∃ c ∈ client.channels, c.name = channelName)
    (hsend : ∀ c, FirstNamed Channel.name channelName client.channels c → c.hasSend = true) :
    ∃ c, FirstNamed Channel.name channelName client.channels c ∧
      (sendMessage client message channelName).effects = [.send c message] ∧
      (sendMessage client message channelName).sends = [(c, message)] ∧
      (sendMessage client message channelName).logs = [] ∧
      (sendMessage client message channelName).completion = .ok none := by
  obtain ⟨c, hc⟩ := find_named_of_mem Channel.name channelName client.channels h
  have hfirst := find_named_eq_some _ _ _ _ hc
  refine ⟨c, hfirst, ?_⟩
  rw [sendMessage_of_find_some client message channelName c hc (hsend c hfirst)]
  exact ⟨rfl, rfl, rfl, rfl⟩

theorem sendMessage_found_witness :
    (∃ c ∈ sampleClient.channels, c.name = "general") ∧
    (∀ c, FirstNamed Channel.name "general" sampleClient.channels c → c.hasSend = true) ∧
    ∃ c, FirstNamed Channel.name "general" sampleClient.channels c ∧
      (sendMessage sampleClient "hi" "general").effects = [.send c "hi"] ∧
      (sendMessage sampleClient "hi" "general").sends = [(c, "hi")] ∧
      (sendMessage sampleClient "hi" "general").logs = [] ∧
      (sendMessage sampleClient "hi" "general").completion = .ok none :=
  have hs : ∀ c, FirstNamed Channel.name "general" sampleClient.channels c →
      c.hasSend = true := by
    intro c hc
    have hf := find_named_of_firstNamed Channel.name "general" sampleClient.channels c hc
    have hv : sampleClient.channels.find? (fun y => y.name == "general")
        = some ⟨2, "general", true⟩ := rfl
    rw [hv] at hf
    cases hf
    rfl
  ⟨by decide, hs, sendMessage_found sampleClient "hi" "general" (by decide) hs⟩

/-- C2: when no cached channel is called `channelName`, `sendMessage message
channelName` writes the single log line `Channel <channelName> not found!`,
hands nothing to any channel, does not throw and returns `undefined`. -/
theorem sendMessage_not_found (client : Client) (message channelName : String)
    (h : ∀ c ∈ client.channels, c.name ≠ channelName) :
    (sendMessage client message channelName).effects
        = [.log ("Channel " ++ channelName ++ " not found!")] ∧
      (sendMessage client message channelName).logs
        = ["Channel " ++ channelName ++ " not found!"] ∧
      (sendMessage client message channelName).sends = [] ∧
      (sendMessage client message channelName).completion = .ok none := by
  rw [sendMessage_of_find_none client message channelName
    ((find_named_eq_none Channel.name channelName client.channels).mpr h)]
  exact ⟨rfl, rfl, rfl, rfl⟩

theorem sendMessage_not_found_witness :
    (sendMessage ⟨[⟨1, "random", true⟩, ⟨2, "general", false⟩], [], fun _ => none⟩
        "hi" "nonexistent").effects = [.log ("Channel " ++ "nonexistent" ++ " not found!")] ∧
      (sendMessage ⟨[⟨1, "random", true⟩, ⟨2, "general", false⟩], [], fun _ => none⟩
        "hi" "nonexistent").logs = ["Channel " ++ "nonexistent" ++ " not found!"] ∧
      (sendMessage ⟨[⟨1, "random", true⟩, ⟨2, "general", false⟩], [], fun _ => none⟩
        "hi" "nonexistent").sends = [] ∧
      (sendMessage ⟨[⟨1, "random", true⟩, ⟨2, "general", false⟩], [], fun _ => none⟩
        "hi" "nonexistent").completion = .ok none :=
  sendMessage_not_found ⟨[⟨1, "random", true⟩, ⟨2, "general", false⟩], [], fun _ => none⟩
    "hi" "nonexistent" (by decide)

/-- C3: `sendMessageToHealthCheckChannel message` is the same run (same sends,
same log lines, same returned value) as `sendMessage message
"skynet-portal-health-check"`, for every message and every cache state. -/
theorem sendMessageToHealthCheckChannel_eq_sendMessage (client : Client) (message : String) :
    sendMessageToHealthCheckChannel client message
        = sendMessage client message "skynet-portal-health-check" ∧
      (sendMessageToHealthCheckChannel client message).sends
        = (sendMessage client message "skynet-portal-health-check").sends ∧
      (sendMessageToHealthCheckChannel client message).logs
        = (sendMessage client message "skynet-portal-health-check").logs ∧
      (sendMessageToHealthCheckChannel client message).completion
        = (sendMessage client message "skynet-portal-health-check").completion :=
  ⟨rfl, rfl, rfl, rfl⟩

/-- C4: `getGuildByName guildName` performs no effect, never throws, and returns
the first cached guild, in cache order, whose name is exactly `guildName`; the
result is `undefined` exactly when no cached guild has that name, and a guild
whose name differs from `guildName` only in letter case is never returned. -/
theorem getGuildByName_spec (client : Client) (guildName : String) :
    (getGuildByName client guildName).effects = [] ∧
      ∃ r, (getGuildByName client guildName).completion = .ok r ∧
        (r = none ↔ ∀ g ∈ client.guilds, g.name ≠ guildName) ∧
        (∀ g, r = some g ↔ FirstNamed Guild.name guildName client.guilds g) ∧
        (∀ g, g.name ≠ guildName → g.name.toLower = guildName.toLower → r ≠ some g) := by
  refine ⟨rfl, client.guilds.find? (fun guild => guild.name == guildName), rfl,
    find_named_eq_none Guild.name guildName client.guilds, ?_, ?_⟩
  · intro g
    exact ⟨find_named_eq_some Guild.name guildName client.guilds g,
      find_named_of_firstNamed Guild.name guildName client.guilds g⟩
  · intro g hne _ hr
    obtain ⟨_, _, _, _, hg⟩ := find_named_eq_some Guild.name guildName client.guilds g hr
    exact hne hg

/-- C5: when a guild called `Nebulous` is cached, `getRoleByName roleName`
performs no effect and returns the first role called exactly `roleName` among
the roles of the first guild called `Nebulous`, or `undefined` when that guild
has no such role; replacing the roles of the guilds with other names leaves the
run unchanged. -/
theorem getRoleByName_spec (client : Client) (roleName : String)
    (h : ∃ g ∈ client.guilds, g.name = "Nebulous") :
    ∃ g, FirstNamed Guild.name "Nebulous" client.guilds g ∧
      (getRoleByName client roleName).effects = [] ∧
      ∃ r, (getRoleByName client roleName).completion = .ok r ∧
        (r = none ↔ ∀ role ∈ g.roles, role.name ≠ roleName) ∧
        (∀ role, r = some role ↔ FirstNamed Role.name roleName g.roles role) ∧
        ∀ f : Guild → List Role,
          getRoleByName
              { client with
                guilds := client.guilds.map fun g =>
                  if g.name = "Nebulous" then g else { g with roles := f g } }
              roleName
            = getRoleByName client roleName := by
  obtain ⟨g, hg⟩ := find_named_of_mem Guild.name "Nebulous" client.guilds h
  refine ⟨g, find_named_eq_some _ _ _ _ hg, ?_⟩
  rw [getRoleByName_of_find_some client roleName g hg]
  refine ⟨rfl, g.roles.find? (fun role => role.name == roleName), rfl,
    find_named_eq_none Role.name roleName g.roles, ?_, ?_⟩
  · intro role
    exact ⟨find_named_eq_some Role.name roleName g.roles role,
      find_named_of_firstNamed Role.name roleName g.roles role⟩
  · intro f
    exact getRoleByName_of_find_some _ roleName g
      ((find_nebulous_map f client.guilds).trans hg)

/-- C6: `getRoleByName roleName` throws (a `TypeError`, from reading `roles` of
`undefined`) exactly when no cached guild is called `Nebulous`; in that case it
does not return `undefined`, and it does not throw when such a guild is cached. -/
theorem getRoleByName_throws_iff (client : Client) (roleName : String) :
    ((∃ e, (getRoleByName client roleName).completion = .error e) ↔
        ∀ g ∈ client.guilds, g.name ≠ "Nebulous") ∧
      ((∀ g ∈ client.guilds, g.name ≠ "Nebulous") →
        (getRoleByName client roleName).completion = .error (typeErrorReading "roles") ∧
        (getRoleByName client roleName).completion ≠ .ok none) ∧
      ((∃ g ∈ client.guilds, g.name = "Nebulous") →
        ∃ r, (getRoleByName client roleName).completion = .ok r) := by
  cases hf : client.guilds.find? (fun guild => guild.name == "Nebulous") with
  | none =>
    have hall := (find_named_eq_none Guild.name "Nebulous" client.guilds).mp hf
    rw [getRoleByName_of_find_none client roleName hf]
    refine ⟨⟨fun _ => hall, fun _ => ⟨_, rfl⟩⟩, fun _ => ⟨rfl, by simp⟩, ?_⟩
    rintro ⟨g, hg, hn⟩
    exact absurd hn (hall g hg)
  | some g =>
    obtain ⟨pre, post, hsplit, _, hn⟩ := find_named_eq_some Guild.name "Nebulous" _ _ hf
    have hmem : g ∈ client.guilds := by rw [hsplit]; simp
    rw [getRoleByName_of_find_some client roleName g hf]
    refine ⟨⟨?_, fun hall => absurd hn (hall g hmem)⟩, fun hall => absurd hn (hall g hmem),
      fun _ => ⟨_, rfl⟩⟩
    rintro ⟨e, he⟩
    simp at he

theorem getRoleByName_spec_witness :
    (∃ g ∈ sampleClient.guilds, g.name = "Nebulous") ∧
    ∃ g, FirstNamed Guild.name "Nebulous" sampleClient.guilds g ∧
      (getRoleByName sampleClient "Admin").effects = [] ∧
      ∃ r, (getRoleByName sampleClient "Admin").completion = .ok r ∧
        (r = none ↔ ∀ role ∈ g.roles, role.name ≠ "Admin") ∧
        (∀ role, r = some role ↔ FirstNamed Role.name "Admin" g.roles role) ∧
        ∀ f : Guild → List Role,
          getRoleByName
              { sampleClient with
                guilds := sampleClient.guilds.map fun g =>
                  if g.name = "Nebulous" then g else { g with roles := f g } }
              "Admin"
            = getRoleByName sampleClient "Admin" :=
  ⟨by decide, getRoleByName_spec sampleClient "Admin" (by decide)⟩

/-- C7, as stated, fails: with no channel called `skynet-portal-health-check`
in the cache, the ready listener hands no message to any channel and writes
the not-found log line instead. -/
theorem onReady_channel_missing :
    (onReady ⟨some "token", some "portal-1"⟩ categoryFirstClient).sends = [] ∧
      (onReady ⟨some "token", some "portal-1"⟩ categoryFirstClient).logs
        = ["Channel skynet-portal-health-check not found!"] ∧
      ¬ ∃ c : Channel, (onReady ⟨some "token", some "portal-1"⟩ categoryFirstClient).sends
        = [(c, "portal-1: reporting for duty!")] := by
  refine ⟨rfl, rfl, ?_⟩
  rintro ⟨c, hc⟩
  have h0 : (onReady ⟨some "token", some "portal-1"⟩ categoryFirstClient).sends = [] := rfl
  rw [h0] at hc
  exact List.noConfusion hc

/-- C7, amended: when the ready event is delivered, a channel called
`skynet-portal-health-check` is cached and the first such channel in cache
order has a `send` method, the listener hands exactly one message to that
channel and does nothing else: `<n>: reporting for duty!` when `PORTAL_NAME`
is set to `n`, and `PORTAL_NAME not defined: reporting for duty!` when it is
unset. -/
theorem onReady_announces (env : Env) (client : Client)
    (h : ∃ c ∈ client.channels, c.name = "skynet-portal-health-check")
    (hsend : ∀ c, FirstNamed Channel.name "skynet-portal-health-check" client.channels c →
      c.hasSend = true) :
    ∃ c, FirstNamed Channel.name "skynet-portal-health-check" client.channels c ∧
      (∀ n, env.PORTAL_NAME = some n →
        (onReady env client).effects = [.send c (n ++ ": reporting for duty!")] ∧
        (onReady env client).sends = [(c, n ++ ": reporting for duty!")]) ∧
      (env.PORTAL_NAME = none →
        (onReady env client).effects
          = [.send c "PORTAL_NAME not defined: reporting for duty!"] ∧
        (onReady env client).sends
          = [(c, "PORTAL_NAME not defined: reporting for duty!")]) ∧
      (onReady env client).logs = [] ∧
      (onReady env client).completion = .ok () := by
  obtain ⟨c, hc⟩ := find_named_of_mem Channel.name _ client.channels h
  have hfirst := find_named_eq_some _ _ _ _ hc
  have hrun : onReady env client
      = ⟨[.send c (PORTAL_NAME env ++ ": reporting for duty!")], .ok ()⟩ := by
    simp only [onReady, sendMessageToHealthCheckChannel, bind, Run.andThen,
      sendMessage_of_find_some client _ _ c hc (hsend c hfirst)]
    rfl
  refine ⟨c, hfirst, ?_, ?_, ?_, ?_⟩
  · intro n hn
    have hp : PORTAL_NAME env = n := by simp only [PORTAL_NAME, hn]
    rw [hrun, hp]
    exact ⟨rfl, rfl⟩
  · intro hn
    have hp : PORTAL_NAME env = "PORTAL_NAME not defined" := by simp only [PORTAL_NAME, hn]
    rw [hrun, hp]
    exact ⟨rfl, rfl⟩
  · rw [hrun]; rfl
  · rw [hrun]

theorem onReady_announces_witness :
    (∃ c ∈ readyClient.channels, c.name = "skynet-portal-health-check") ∧
    (∀ c, FirstNamed Channel.name "skynet-portal-health-check" readyClient.channels c →
      c.hasSend = true) ∧
    ∃ c, FirstNamed Channel.name "skynet-portal-health-check" readyClient.channels c ∧
      (∀ n, (⟨some "token", some "portal-1"⟩ : Env).PORTAL_NAME = some n →
        (onReady ⟨some "token", some "portal-1"⟩ readyClient).effects
          = [.send c (n ++ ": reporting for duty!")] ∧
        (onReady ⟨some "token", some "portal-1"⟩ readyClient).sends
          = [(c, n ++ ": reporting for duty!")]) ∧
      ((⟨some "token", some "portal-1"⟩ : Env).PORTAL_NAME = none →
        (onReady ⟨some "token", some "portal-1"⟩ readyClient).effects
          = [.send c "PORTAL_NAME not defined: reporting for duty!"] ∧
        (onReady ⟨some "token", some "portal-1"⟩ readyClient).sends
          = [(c, "PORTAL_NAME not defined: reporting for duty!")]) ∧
      (onReady ⟨some "token", some "portal-1"⟩ readyClient).logs = [] ∧
      (onReady ⟨some "token", some "portal-1"⟩ readyClient).completion = .ok () :=
  have hs : ∀ c, FirstNamed Channel.name "skynet-portal-health-check"
      readyClient.channels c → c.hasSend = true := by
    intro c hc
    have hf := find_named_of_firstNamed Channel.name "skynet-portal-health-check"
      readyClient.channels c hc
    have hv : readyClient.channels.find? (fun y => y.name == "skynet-portal-health-check")
        = some ⟨2, "skynet-portal-health-check", true⟩ := rfl
    rw [hv] at hf
    cases hf
    rfl
  ⟨by decide, hs,
    onReady_announces ⟨some "token", some "portal-1"⟩ readyClient (by decide) hs⟩

/-- C8: when `DISCORD_BOT_TOKEN` is unset, the startup sequence makes no login
attempt, writes exactly one log line (the token is not available, the discord
integration is skipped) and completes normally. -/
theorem startup_without_token (env : Env) (client : Client)
    (h : env.DISCORD_BOT_TOKEN = none) :
    (startup env client).effects
        = [.log "DISCORD_BOT_TOKEN environment variable not available, skipping discord integration"] ∧
      (startup env client).logins = [] ∧
      (startup env client).logs
        = ["DISCORD_BOT_TOKEN environment variable not available, skipping discord integration"] ∧
      (startup env client).completion = .ok () := by
  rw [startup_of_falsy env client (by rw [h]; rfl)]
  exact ⟨rfl, rfl, rfl, rfl⟩

theorem startup_without_token_witness :
    (⟨none, some "portal-1"⟩ : Env).DISCORD_BOT_TOKEN = none ∧
      (startup ⟨none, some "portal-1"⟩ sampleClient).effects
        = [.log "DISCORD_BOT_TOKEN environment variable not available, skipping discord integration"] ∧
      (startup ⟨none, some "portal-1"⟩ sampleClient).logins = [] ∧
      (startup ⟨none, some "portal-1"⟩ sampleClient).logs
        = ["DISCORD_BOT_TOKEN environment variable not available, skipping discord integration"] ∧
      (startup ⟨none, some "portal-1"⟩ sampleClient).completion = .ok () :=
  ⟨rfl, startup_without_token ⟨none, some "portal-1"⟩ sampleClient rfl⟩

/-- C9, as stated, fails: with the token configured as the empty string and a
service that rejects every login, the startup sequence makes no login attempt
and logs the skip line, not the rejection. -/
theorem startup_empty_token_no_login :
    sampleClient.loginOutcome (some "") = some ⟨"Error", "An invalid token was provided."⟩ ∧
      (startup ⟨some "", none⟩ sampleClient).logins = [] ∧
      (startup ⟨some "", none⟩ sampleClient).logs
        = ["DISCORD_BOT_TOKEN environment variable not available, skipping discord integration"] ∧
      ¬ ((startup ⟨some "", none⟩ sampleClient).logins = [some ""] ∧
        (startup ⟨some "", none⟩ sampleClient).logs
          = ["Could not connect to discord server: An invalid token was provided."]) := by
  refine ⟨rfl, rfl, rfl, ?_⟩
  rintro ⟨hl, _⟩
  have h0 : (startup ⟨some "", none⟩ sampleClient).logins = [] := rfl
  rw [h0] at hl
  exact List.noConfusion hl

/-- C9, amended: for every non-empty configured token, the startup sequence
makes exactly one login attempt with that token (no retry); when the attempt
fails with an error `e` it then writes the one log line `Could not connect to
discord server: <e.message>` and completes normally without propagating `e`;
when the attempt succeeds it writes no log line. -/
theorem startup_login (env : Env) (client : Client) (token : String)
    (htoken : env.DISCORD_BOT_TOKEN = some token) (hne : token ≠ "") :
    (∀ e, client.loginOutcome (some token) = some e →
        (startup env client).effects
          = [.login (some token), .log ("Could not connect to discord server: " ++ e.message)] ∧
        (startup env client).logins = [some token] ∧
        (startup env client).logs = ["Could not connect to discord server: " ++ e.message] ∧
        (startup env client).completion = .ok ()) ∧
      (client.loginOutcome (some token) = none →
        (startup env client).effects = [.login (some token)] ∧
        (startup env client).logins = [some token] ∧
        (startup env client).logs = [] ∧
        (startup env client).completion = .ok ()) := by
  have ht : truthy env.DISCORD_BOT_TOKEN = true :=
    (truthy_iff _).mpr ⟨token, htoken, hne⟩
  rw [startup_of_truthy env client ht, htoken]
  constructor
  · intro e he
    rw [he]
    exact ⟨rfl, rfl, rfl, rfl⟩
  · intro he
    rw [he]
    exact ⟨rfl, rfl, rfl, rfl⟩

theorem startup_login_witness :
    (⟨some "secret", none⟩ : Env).DISCORD_BOT_TOKEN = some "secret" ∧ "secret" ≠ "" ∧
    ((∀ e, sampleClient.loginOutcome (some "secret") = some e →
        (startup ⟨some "secret", none⟩ sampleClient).effects
          = [.login (some "secret"),
              .log ("Could not connect to discord server: " ++ e.message)] ∧
        (startup ⟨some "secret", none⟩ sampleClient).logins = [some "secret"] ∧
        (startup ⟨some "secret", none⟩ sampleClient).logs
          = ["Could not connect to discord server: " ++ e.message] ∧
        (startup ⟨some "secret", none⟩ sampleClient).completion = .ok ()) ∧
      (sampleClient.loginOutcome (some "secret") = none →
        (startup ⟨some "secret", none⟩ sampleClient).effects = [.login (some "secret")] ∧
        (startup ⟨some "secret", none⟩ sampleClient).logins = [some "secret"] ∧
        (startup ⟨some "secret", none⟩ sampleClient).logs = [] ∧
        (startup ⟨some "secret", none⟩ sampleClient).completion = .ok ())) :=
  ⟨rfl, by decide, startup_login ⟨some "secret", none⟩ sampleClient "secret" rfl (by decide)⟩

/-- C10: the startup sequence makes a login attempt exactly when
`DISCORD_BOT_TOKEN` is a non-empty string; a token configured as the empty
string is handled like an unset one: no login attempt, and the skip line is
the only log line. -/
theorem startup_login_iff_nonempty (env : Env) (client : Client) :
    ((∃ t, Effect.login t ∈ (startup env client).effects) ↔
        ∃ s, env.DISCORD_BOT_TOKEN = some s ∧ s ≠ "") ∧
      ((startup env client).logins ≠ [] ↔ ∃ s, env.DISCORD_BOT_TOKEN = some s ∧ s ≠ "") ∧
      startup ⟨some "", env.PORTAL_NAME⟩ client = startup ⟨none, env.PORTAL_NAME⟩ client ∧
      (startup ⟨some "", env.PORTAL_NAME⟩ client).effects
        = [.log "DISCORD_BOT_TOKEN environment variable not available, skipping discord integration"] ∧
      (startup ⟨some "", env.PORTAL_NAME⟩ client).logins = [] := by
  refine ⟨?_, ?_, rfl, rfl, rfl⟩
  · cases ht : truthy env.DISCORD_BOT_TOKEN with
    | false =>
      rw [startup_of_falsy env client ht]
      constructor
      · rintro ⟨t, hmem⟩
        simp at hmem
      · intro hs
        rw [(truthy_iff _).mpr hs] at ht
        exact absurd ht (by decide)
    | true =>
      rw [startup_of_truthy env client ht]
      refine ⟨fun _ => (truthy_iff _).mp ht, fun _ => ⟨env.DISCORD_BOT_TOKEN, ?_⟩⟩
      cases client.loginOutcome env.DISCORD_BOT_TOKEN <;> simp
  · cases ht : truthy env.DISCORD_BOT_TOKEN with
    | false =>
      rw [startup_of_falsy env client ht]
      constructor
      · intro hl
        exact absurd rfl hl
      · intro hs
        rw [(truthy_iff _).mpr hs] at ht
        exact absurd ht (by decide)
    | true =>
      rw [startup_of_truthy env client ht]
      refine ⟨fun _ => (truthy_iff _).mp ht, fun _ => ?_⟩
      cases client.loginOutcome env.DISCORD_BOT_TOKEN <;> simp [Run.logins]

end Discord
